import Mathlib

/-!
Verification of the checkpoint configuration-resolution subsystem of the
great_expectations repository: a shallow embedding of
`great_expectations/checkpoint/util.py` and
`great_expectations/checkpoint/toolkit.py`, followed by theorems about the
embedded functions.

Python dictionaries are modelled as association lists over string keys with
insertion-order semantics (lookup returns the first matching entry; item
assignment replaces the first matching entry in place, or appends).  Python
values are modelled by the inductive type `PyVal`; an opaque in-memory data
payload (for instance a pandas DataFrame handle) is `PyVal.payload id`.
Fallible code returns `Except PyErr`.
-/

/-- Python values occurring in checkpoint configurations.  `payload` stands
for an opaque, non-serializable in-memory object (a DataFrame handle),
identified by a tag so that object identity can be tracked. -/
inductive PyVal where
  | none
  | bool (b : Bool)
  | str (s : String)
  | num (n : Int)
  | list (xs : List PyVal)
  | dict (entries : List (String × PyVal))
  | payload (id : Nat)
deriving Repr

mutual

/-- Boolean equality on `PyVal` (structural). -/
def PyVal.beq : PyVal → PyVal → Bool
  | PyVal.none, PyVal.none => true
  | PyVal.bool a, PyVal.bool b => a = b
  | PyVal.str a, PyVal.str b => a = b
  | PyVal.num a, PyVal.num b => a = b
  | PyVal.list a, PyVal.list b => PyVal.beqList a b
  | PyVal.dict a, PyVal.dict b => PyVal.beqEntries a b
  | PyVal.payload a, PyVal.payload b => a = b
  | _, _ => false

/-- Boolean equality on lists of `PyVal`. -/
def PyVal.beqList : List PyVal → List PyVal → Bool
  | [], [] => true
  | x :: xs, y :: ys => PyVal.beq x y && PyVal.beqList xs ys
  | _, _ => false

/-- Boolean equality on entry lists. -/
def PyVal.beqEntries : List (String × PyVal) → List (String × PyVal) → Bool
  | [], [] => true
  | (k, v) :: xs, (k', v') :: ys =>
    k = k' && PyVal.beq v v' && PyVal.beqEntries xs ys
  | _, _ => false

end

mutual

theorem PyVal.beq_refl : ∀ a : PyVal, PyVal.beq a a = true
  | PyVal.none => rfl
  | PyVal.bool _ => by simp [PyVal.beq]
  | PyVal.str _ => by simp [PyVal.beq]
  | PyVal.num _ => by simp [PyVal.beq]
  | PyVal.list xs => by simp [PyVal.beq, PyVal.beqList_refl xs]
  | PyVal.dict es => by simp [PyVal.beq, PyVal.beqEntries_refl es]
  | PyVal.payload _ => by simp [PyVal.beq]

theorem PyVal.beqList_refl : ∀ xs : List PyVal, PyVal.beqList xs xs = true
  | [] => rfl
  | x :: xs => by simp [PyVal.beqList, PyVal.beq_refl x, PyVal.beqList_refl xs]

theorem PyVal.beqEntries_refl :
    ∀ es : List (String × PyVal), PyVal.beqEntries es es = true
  | [] => rfl
  | (k, v) :: es => by
    simp [PyVal.beqEntries, PyVal.beq_refl v, PyVal.beqEntries_refl es]

end

mutual

theorem PyVal.eq_of_beq : ∀ {a b : PyVal}, PyVal.beq a b = true → a = b
  | PyVal.none, PyVal.none, _ => rfl
  | PyVal.bool _, PyVal.bool _, h => by
    simp [PyVal.beq] at h; simp [h]
  | PyVal.str _, PyVal.str _, h => by
    simp [PyVal.beq] at h; simp [h]
  | PyVal.num _, PyVal.num _, h => by
    simp [PyVal.beq] at h; simp [h]
  | PyVal.list _, PyVal.list _, h => by
    simp [PyVal.beq] at h; simp [PyVal.eqList_of_beq h]
  | PyVal.dict _, PyVal.dict _, h => by
    simp [PyVal.beq] at h; simp [PyVal.eqEntries_of_beq h]
  | PyVal.payload _, PyVal.payload _, h => by
    simp [PyVal.beq] at h; simp [h]

theorem PyVal.eqList_of_beq :
    ∀ {xs ys : List PyVal}, PyVal.beqList xs ys = true → xs = ys
  | [], [], _ => rfl
  | x :: xs, y :: ys, h => by
    simp [PyVal.beqList] at h
    have h1 := PyVal.eq_of_beq h.1
    have h2 := PyVal.eqList_of_beq h.2
    simp [h1, h2]

theorem PyVal.eqEntries_of_beq :
    ∀ {xs ys : List (String × PyVal)}, PyVal.beqEntries xs ys = true → xs = ys
  | [], [], _ => rfl
  | (k, v) :: xs, (k', v') :: ys, h => by
    simp [PyVal.beqEntries] at h
    have h1 := PyVal.eq_of_beq h.1.2
    have h2 := PyVal.eqEntries_of_beq h.2
    simp [h.1.1, h1, h2]

end

instance : DecidableEq PyVal := fun a b =>
  if h : PyVal.beq a b = true then isTrue (PyVal.eq_of_beq h)
  else isFalse (fun he => h (he ▸ PyVal.beq_refl a))

/-- A Python dictionary, as an insertion-ordered association list. -/
abbrev Dict := List (String × PyVal)

/-- `d[k]` / `d.get(k)`: the first entry with key `k`. -/
def Dict.get : Dict → String → Option PyVal
  | [], _ => Option.none
  | (k', v) :: rest, k => if k' = k then Option.some v else Dict.get rest k

/-- `k in d`. -/
def Dict.containsKey (d : Dict) (k : String) : Bool :=
  (Dict.get d k).isSome

/-- `d[k] = v`: replace the first entry with key `k` in place, or append. -/
def Dict.put : Dict → String → PyVal → Dict
  | [], k, v => [(k, v)]
  | (k', v') :: rest, k, v =>
    if k' = k then (k, v) :: rest else (k', v') :: Dict.put rest k v

/-- `d.pop(k)` (the removal effect): drop every entry with key `k`. -/
def Dict.pop (d : Dict) (k : String) : Dict :=
  d.filter (fun p => p.1 ≠ k)

/-- `d.update(m)`: assign every entry of `m` into `d`, in order. -/
def Dict.update (d m : Dict) : Dict :=
  m.foldl (fun acc p => Dict.put acc p.1 p.2) d

/-- The keys of a dictionary, in order. -/
def Dict.keys (d : Dict) : List String :=
  d.map Prod.fst

/-- Python truthiness of a value. -/
def truthy : PyVal → Bool
  | PyVal.none => false
  | PyVal.bool b => b
  | PyVal.str s => s ≠ ""
  | PyVal.num n => n ≠ 0
  | PyVal.list xs => !xs.isEmpty
  | PyVal.dict es => !es.isEmpty
  | PyVal.payload _ => true

/-- The Python exceptions raised by the embedded code. -/
inductive PyErr where
  | checkpointError (msg : String)
  | invalidConfigError (msg : String)
  | typeError (msg : String)
  | attributeError (msg : String)
  | keyError (k : String)
  | indexError
  | checkpointNotFoundError (msg : String)
deriving Repr, DecidableEq

/-- Semantics of the Python call `dict(**a, **b)`: keyword-argument expansion
raises a `TypeError` as soon as a key of `b` is already a key of `a`;
otherwise the entries are concatenated. -/
def dictKwMerge (a b : Dict) : Except PyErr Dict :=
  match b.find? (fun p => Dict.containsKey a p.1) with
  | Option.some p =>
    Except.error (PyErr.typeError
      ("got multiple values for keyword argument " ++ p.1))
  | Option.none => Except.ok (a ++ b)

/-- Modelled from the spec: `filter_properties_dict`
(`great_expectations/util.py`, not under `src/`) — "a cleanup pass removes
empty/falsy fields (empty lists, empty dicts, null strings) from the final
mapping"; with `keep_fields` it keeps only the listed field names, "without
dropping falsy values" when `clean_nulls`/`clean_falsy` are off. -/
def filterPropertiesDict (d : Dict) (keepFields : Option (List String))
    (cleanFalsy : Bool) (cleanNulls : Bool) : Dict :=
  let d1 := match keepFields with
    | Option.some ks => d.filter (fun p => ks.contains p.1)
    | Option.none => d
  if cleanFalsy then d1.filter (fun p => truthy p.2)
  else if cleanNulls then d1.filter (fun p => p.2 ≠ PyVal.none)
  else d1

/-- The two batch-request shapes: `BatchRequest` and `RuntimeBatchRequest`. -/
inductive BRClass where
  | batchRequest
  | runtimeBatchRequest
deriving Repr, DecidableEq

/-- Modelled from the spec: the legal field names of each request shape
(`BatchRequest.field_names` / `RuntimeBatchRequest.field_names` in
`great_expectations/core/batch.py`, not under `src/`) — "datasource-name,
data-connector-name, data-asset-name (all required...), optional
data-connector-query, and — only for the runtime variant —
runtime-parameters ... and batch-identifiers". -/
def BRClass.fieldNames : BRClass → List String
  | BRClass.batchRequest =>
    ["datasource_name", "data_connector_name", "data_asset_name",
     "data_connector_query"]
  | BRClass.runtimeBatchRequest =>
    ["datasource_name", "data_connector_name", "data_asset_name",
     "data_connector_query", "runtime_parameters", "batch_identifiers"]

/-- The typed request object constructed at the end of
`get_runtime_batch_request`: its class and its field mapping. -/
structure ResolvedBatchRequest where
  cls : BRClass
  fields : Dict
deriving Repr, DecidableEq

/-- Lines 242-252 of `checkpoint/util.py`: when the validation-level request
carries `runtime_parameters.batch_data` (non-null), that payload is popped
from the mapping, the container is deep-copied, and the same payload object is
restored into both the original and the copy.  The net effect on the mapping
(and the value of the copy `runtime_batch_request_dict`) is that `batch_data`
moves to the last position of `runtime_parameters`; this function returns that
mapping together with the popped payload.  A non-dict, non-null
`runtime_parameters` value has no `.get` attribute and raises; a DataFrame
payload does have `.get`, which finds no `batch_data` key. -/
def popBatchData (val : Dict) : Except PyErr (Dict × Option PyVal) :=
  match Dict.get val "runtime_parameters" with
  | Option.some (PyVal.dict rp) =>
    match Dict.get rp "batch_data" with
    | Option.some bd =>
      if bd = PyVal.none then Except.ok (val, Option.none)
      else
        Except.ok
          (Dict.put val "runtime_parameters"
            (PyVal.dict (Dict.put (Dict.pop rp "batch_data") "batch_data" bd)),
           Option.some bd)
    | Option.none => Except.ok (val, Option.none)
  | Option.some PyVal.none => Except.ok (val, Option.none)
  | Option.some (PyVal.payload _) => Except.ok (val, Option.none)
  | Option.some _ =>
    Except.error (PyErr.attributeError "runtime_parameters has no attribute get")
  | Option.none => Except.ok (val, Option.none)

/-- Lines 263-278 of `checkpoint/util.py`: overlay the merged validation-level
mapping with the top-level mapping, synthesize a timestamp batch identifier in
cloud mode, keep only the legal field names (`clean_nulls=False`), and
construct the typed request. -/
def buildBatchRequest (top rbd : Dict) (cls : BRClass) (geCloudMode : Bool)
    (now : String) : Except PyErr ResolvedBatchRequest :=
  let merged := Dict.update rbd top
  match
    (if geCloudMode ∧ cls = BRClass.runtimeBatchRequest then
      match (Dict.get merged "batch_identifiers").getD (PyVal.dict []) with
      | PyVal.dict es =>
        if es.isEmpty then
          Except.ok
            (Dict.put merged "batch_identifiers"
              (PyVal.dict [("timestamp", PyVal.str now)]))
        else Except.ok merged
      | _ =>
        Except.error (PyErr.attributeError "batch_identifiers has no keys")
    else Except.ok merged) with
  | Except.error e => Except.error e
  | Except.ok merged2 =>
    Except.ok
      ⟨cls, filterPropertiesDict merged2 (Option.some cls.fieldNames) false false⟩

/-- The condition of the conflict loop (`checkpoint/util.py` lines 254-259):
an entry of the validation-level mapping whose value is non-null and whose
key also has a non-null value in the top-level mapping. -/
def conflictPred (top : Dict) : String × PyVal → Bool :=
  fun p =>
    decide (p.2 ≠ PyVal.none) &&
    decide ((Dict.get top p.1).getD PyVal.none ≠ PyVal.none)

/-- The body of `get_runtime_batch_request` once both inputs have been
defaulted to plain mappings (lines 231-278): the keyword-expansion merge,
shape selection, pop/restore of `batch_data`, conflict loop, overlay,
cloud-mode timestamp and field filtering.  The second component is the final
state of the validation-level mapping. -/
def getRuntimeBatchRequestAux (top val : Dict) (geCloudMode : Bool)
    (now : String) : Except PyErr (Option ResolvedBatchRequest) × Dict :=
  match dictKwMerge top val with
  | Except.error e => (Except.error e, val)
  | Except.ok effective =>
    let cls := if Dict.containsKey effective "runtime_parameters" then
      BRClass.runtimeBatchRequest else BRClass.batchRequest
    match popBatchData val with
    | Except.error e => (Except.error e, val)
    | Except.ok (val2, _) =>
      match val2.find? (conflictPred top) with
      | Option.some p =>
        (Except.error (PyErr.checkpointError
          ("BatchRequest attribute \"" ++ p.1 ++
           "\" was specified in both validation and top-level CheckpointConfig.")),
         val2)
      | Option.none =>
        match buildBatchRequest top val2 cls geCloudMode now with
        | Except.error e => (Except.error e, val2)
        | Except.ok r => (Except.ok (Option.some r), val2)

/-- `get_runtime_batch_request` (`checkpoint/util.py`, lines 209-278), with
the mutation of `validation_batch_request` made explicit: the second component
of the result is the final state of the validation-level mapping.  The inputs
are the already-normalized mappings (a `BatchRequest` argument is converted by
`to_dict()` before these steps).  `now` stands for `datetime.datetime.now()`. -/
def getRuntimeBatchRequest (topBR valBR : Option Dict) (geCloudMode : Bool)
    (now : String) : Except PyErr (Option ResolvedBatchRequest) × Option Dict :=
  match topBR, valBR with
  | Option.none, Option.none => (Except.ok Option.none, Option.none)
  | _, _ =>
    let res := getRuntimeBatchRequestAux (topBR.getD []) (valBR.getD [])
      geCloudMode now
    (res.1, valBR.map (fun _ => res.2))

theorem Dict.get_put_self (d : Dict) (k : String) (v : PyVal) :
    Dict.get (Dict.put d k v) k = Option.some v := by
  induction d with
  | nil => simp [Dict.put, Dict.get]
  | cons hd tl ih =>
    obtain ⟨a, w⟩ := hd
    by_cases h : a = k
    · simp [Dict.put, h, Dict.get]
    · simp [Dict.put, h, Dict.get, ih]

theorem Dict.get_put_ne (d : Dict) (k k' : String) (v : PyVal)
    (h : k' ≠ k) : Dict.get (Dict.put d k v) k' = Dict.get d k' := by
  induction d with
  | nil =>
    simp [Dict.put, Dict.get]
    intro hh
    exact absurd hh.symm h
  | cons hd tl ih =>
    obtain ⟨a, w⟩ := hd
    by_cases hk : a = k
    · simp only [Dict.put, if_pos hk]
      have ha : ¬k = k' := fun hh => h hh.symm
      have ha2 : ¬a = k' := fun hh => h (hh.symm.trans hk)
      simp [Dict.get, ha, ha2]
    · simp [Dict.put, hk, Dict.get, ih]

theorem Dict.put_put (d : Dict) (k : String) (v w : PyVal) :
    Dict.put (Dict.put d k v) k w = Dict.put d k w := by
  induction d with
  | nil => simp [Dict.put]
  | cons hd tl ih =>
    obtain ⟨a, w'⟩ := hd
    by_cases hk : a = k
    · simp [Dict.put, hk]
    · simp [Dict.put, hk, ih]

theorem Dict.keys_put_of_contains (d : Dict) (k : String) (v : PyVal)
    (h : Dict.containsKey d k = true) :
    Dict.keys (Dict.put d k v) = Dict.keys d := by
  induction d with
  | nil => simp [Dict.containsKey, Dict.get] at h
  | cons hd tl ih =>
    obtain ⟨a, w⟩ := hd
    by_cases hk : a = k
    · simp [Dict.put, hk, Dict.keys]
    · simp only [Dict.containsKey, Dict.get, if_neg hk] at h
      simp only [Dict.containsKey] at ih
      have := ih h
      simp only [Dict.keys] at this
      simp [Dict.put, hk, Dict.keys, this]

theorem Dict.put_of_not_contains (d : Dict) (k : String) (v : PyVal)
    (h : Dict.containsKey d k = false) : Dict.put d k v = d ++ [(k, v)] := by
  induction d with
  | nil => simp [Dict.put]
  | cons hd tl ih =>
    obtain ⟨a, w⟩ := hd
    by_cases hk : a = k
    · simp [Dict.containsKey, Dict.get, hk] at h
    · simp only [Dict.containsKey, Dict.get, if_neg hk] at h
      simp only [Dict.containsKey] at ih
      simp [Dict.put, hk, ih h]

theorem Dict.get_pop_self (d : Dict) (k : String) :
    Dict.get (Dict.pop d k) k = Option.none := by
  induction d with
  | nil => simp [Dict.pop, Dict.get]
  | cons hd tl ih =>
    obtain ⟨a, w⟩ := hd
    simp only [Dict.pop, ne_eq, decide_not] at ih ⊢
    rw [List.filter_cons]
    by_cases hk : a = k
    · simp [hk, ih]
    · simp [hk, Dict.get, ih]

theorem Dict.get_pop_ne (d : Dict) (k k' : String) (h : k' ≠ k) :
    Dict.get (Dict.pop d k) k' = Dict.get d k' := by
  induction d with
  | nil => simp [Dict.pop, Dict.get]
  | cons hd tl ih =>
    obtain ⟨a, w⟩ := hd
    simp only [Dict.pop, ne_eq, decide_not] at ih ⊢
    rw [List.filter_cons]
    by_cases hk : a = k
    · have ha : ¬a = k' := fun hh => h (hh.symm.trans hk)
      have hb : ¬k = k' := fun hh => h hh.symm
      simp [hk, Dict.get, ha, hb, ih]
    · by_cases hk' : a = k'
      · simp [hk, Dict.get, hk', h]
      · simp [hk, Dict.get, hk', ih]

theorem Dict.not_contains_pop (d : Dict) (k : String) :
    Dict.containsKey (Dict.pop d k) k = false := by
  simp [Dict.containsKey, Dict.get_pop_self]

theorem Dict.pop_append (a b : Dict) (k : String) :
    Dict.pop (a ++ b) k = Dict.pop a k ++ Dict.pop b k := by
  simp [Dict.pop, List.filter_append]

theorem Dict.pop_pop (d : Dict) (k : String) :
    Dict.pop (Dict.pop d k) k = Dict.pop d k := by
  simp [Dict.pop, List.filter_filter]

theorem Dict.pop_put_pop (d : Dict) (k : String) (v : PyVal) :
    Dict.pop (Dict.put (Dict.pop d k) k v) k = Dict.pop d k := by
  rw [Dict.put_of_not_contains _ _ _ (Dict.not_contains_pop d k)]
  rw [Dict.pop_append, Dict.pop_pop]
  simp [Dict.pop, List.filter]

theorem Dict.get_append (a b : Dict) (k : String) :
    Dict.get (a ++ b) k = (Dict.get a k).orElse (fun _ => Dict.get b k) := by
  induction a with
  | nil => simp [Dict.get]
  | cons hd tl ih =>
    obtain ⟨a', w⟩ := hd
    by_cases hk : a' = k
    · simp [Dict.get, hk, Option.orElse]
    · simp [Dict.get, hk, ih]

theorem Dict.get_eq_none_of_not_mem_keys (m : Dict) (k : String)
    (h : k ∉ Dict.keys m) : Dict.get m k = Option.none := by
  induction m with
  | nil => simp [Dict.get]
  | cons hd tl ih =>
    obtain ⟨a, w⟩ := hd
    simp only [Dict.keys, List.map_cons, List.mem_cons] at h
    push_neg at h
    have ha : ¬a = k := fun hh => h.1 hh.symm
    simp [Dict.get, ha, ih (by simpa [Dict.keys] using h.2)]

theorem Dict.mem_of_get (m : Dict) (k : String) (v : PyVal)
    (h : Dict.get m k = Option.some v) : (k, v) ∈ m := by
  induction m with
  | nil => simp [Dict.get] at h
  | cons hd tl ih =>
    obtain ⟨a, w⟩ := hd
    by_cases hk : a = k
    · simp only [Dict.get, if_pos hk] at h
      cases h
      simp [hk]
    · simp only [Dict.get, if_neg hk] at h
      simp [ih h]

theorem Dict.get_update (d m : Dict) (h : (Dict.keys m).Nodup) (k : String) :
    Dict.get (Dict.update d m) k =
      (Dict.get m k).orElse (fun _ => Dict.get d k) := by
  induction m generalizing d with
  | nil => simp [Dict.update, Dict.get]
  | cons hd tl ih =>
    obtain ⟨a, w⟩ := hd
    simp only [Dict.keys, List.map_cons, List.nodup_cons] at h
    have hstep : Dict.update d ((a, w) :: tl) = Dict.update (Dict.put d a w) tl := rfl
    rw [hstep, ih (Dict.put d a w) (by simpa [Dict.keys] using h.2)]
    by_cases hk : k = a
    · subst hk
      have : Dict.get tl k = Option.none :=
        Dict.get_eq_none_of_not_mem_keys _ _ (by simpa [Dict.keys] using h.1)
      simp [this, Dict.get, Dict.get_put_self, Option.orElse]
    · rw [Dict.get_put_ne _ _ _ _ hk]
      have ha : ¬a = k := fun hh => hk hh.symm
      have : Dict.get ((a, w) :: tl) k = Dict.get tl k := by
        simp [Dict.get, ha]
      rw [this]

theorem Dict.get_filter_key (d : Dict) (q : String → Bool) (k : String) :
    Dict.get (d.filter (fun p => q p.1)) k =
      if q k then Dict.get d k else Option.none := by
  induction d with
  | nil => simp [Dict.get]
  | cons hd tl ih =>
    obtain ⟨a, w⟩ := hd
    rw [List.filter_cons]
    by_cases hk : a = k
    · subst hk
      by_cases hq : q a
      · simp [hq, Dict.get]
      · simp [hq, Dict.get, ih]
    · by_cases hq : q a
      · simp [hq, Dict.get, hk, ih]
      · simp [hq, Dict.get, hk, ih]

theorem Dict.get_filter_of_get (d : Dict) (pr : String × PyVal → Bool)
    (k : String) (v : PyVal) (hg : Dict.get d k = Option.some v)
    (hp : pr (k, v) = true) : Dict.get (d.filter pr) k = Option.some v := by
  induction d with
  | nil => simp [Dict.get] at hg
  | cons hd tl ih =>
    obtain ⟨a, w⟩ := hd
    rw [List.filter_cons]
    by_cases hk : a = k
    · subst hk
      simp only [Dict.get, if_pos rfl] at hg
      cases hg
      simp [hp, Dict.get]
    · simp only [Dict.get, if_neg hk] at hg
      by_cases hq : pr (a, w)
      · simp [hq, Dict.get, hk, ih hg]
      · simp [hq, ih hg]

/-- Python `==` on (possibly) one level of nested dictionaries: dictionaries
compare by lookup, everything else by structural equality. -/
def OptPyEq2 : Option PyVal → Option PyVal → Prop
  | Option.some (PyVal.dict x), Option.some (PyVal.dict y) =>
    ∀ j, Dict.get x j = Dict.get y j
  | a, b => a = b

/-- Python `==` on two-level dictionaries (a batch-request mapping whose
values may themselves be dictionaries, such as `runtime_parameters`). -/
def DictEq2 (a b : Dict) : Prop :=
  ∀ k, OptPyEq2 (Dict.get a k) (Dict.get b k)

/-- `DictEq2` lifted to optional mappings. -/
def OptDictEq2 : Option Dict → Option Dict → Prop
  | Option.some a, Option.some b => DictEq2 a b
  | a, b => a = b

/-- C1: the claim says that resolving a batch-request pair sharing a
non-null key raises a `CheckpointError` naming the key.  The code's own
conflict check (`checkpoint/util.py` lines 254-262) would do exactly that,
but it is unreachable: the earlier merge `dict(**top, **entry)` (line 231)
raises a `TypeError` for any shared key first.  This theorem evaluates the
embedded resolver at a pair sharing a non-null key and shows the raised
exception is a `TypeError`, not a `CheckpointError`. -/
theorem C1_shared_nonnull_key_raises_typeerror :
    getRuntimeBatchRequest
      (Option.some [("datasource_name", PyVal.str "ds")])
      (Option.some [("datasource_name", PyVal.str "ds2")]) false "" =
    (Except.error (PyErr.typeError
      "got multiple values for keyword argument datasource_name"),
     Option.some [("datasource_name", PyVal.str "ds2")]) := by rfl

/-- C8 (counterexample): the claim says that when a key is non-null at the
top level and present with a null value at the entry level, resolution
"silently passes".  It does not: the keyword-expansion merge raises a
`TypeError` for the shared key regardless of its values. -/
theorem C8_counterexample :
    getRuntimeBatchRequest
      (Option.some [("data_asset_name", PyVal.str "a")])
      (Option.some [("data_asset_name", PyVal.none)]) false "" =
    (Except.error (PyErr.typeError
      "got multiple values for keyword argument data_asset_name"),
     Option.some [("data_asset_name", PyVal.none)]) := by rfl

/-- C8 (amended): the `CheckpointError` conflict check indeed tests only
non-null overlap and therefore never fires on a null entry-level override —
but resolution does not silently pass: any key present in both mappings,
null-valued or not, makes the keyword-expansion merge raise a `TypeError`. -/
theorem C8_shared_key_always_raises_typeerror
    (top entry : Dict) (g : Bool) (now k : String)
    (htop : Dict.containsKey top k = true)
    (hentry : Dict.containsKey entry k = true) :
    ∃ msg, (getRuntimeBatchRequest (Option.some top) (Option.some entry)
      g now).1 = Except.error (PyErr.typeError msg) := by
  have hv : ∃ v, Dict.get entry k = Option.some v := by
    simp only [Dict.containsKey, Option.isSome_iff_exists] at hentry
    exact hentry
  obtain ⟨v, hv⟩ := hv
  have hmem : (k, v) ∈ entry := Dict.mem_of_get _ _ _ hv
  have hfind : (entry.find? (fun p => Dict.containsKey top p.1)).isSome := by
    rw [List.find?_isSome]
    exact ⟨(k, v), hmem, htop⟩
  obtain ⟨p, hp⟩ := Option.isSome_iff_exists.mp hfind
  refine ⟨"got multiple values for keyword argument " ++ p.1, ?_⟩
  simp [getRuntimeBatchRequest, getRuntimeBatchRequestAux, dictKwMerge, hp]

/-- C8 (witness): the amended theorem applied at a concrete pair with a
null entry-level override of a non-null top-level key. -/
theorem C8_witness :
    ∃ msg, (getRuntimeBatchRequest
      (Option.some [("data_asset_name", PyVal.str "a")])
      (Option.some [("data_asset_name", PyVal.none)]) false "").1 =
      Except.error (PyErr.typeError msg) :=
  C8_shared_key_always_raises_typeerror _ _ false "" "data_asset_name"
    (by decide) (by decide)

/-- The outcome of an HTTP POST made by a notification sender: the transport
either delivers a response with a status code and body text, fails to
connect (`requests.ConnectionError`), or raises some other exception.  The
`requests` session is external to the repository, so the senders are
embedded as functions of this outcome. -/
inductive HttpOutcome where
  | response (status : Int) (text : String)
  | connectionError
  | otherError
deriving Repr, DecidableEq

/-- `send_slack_notification` (`checkpoint/util.py` lines 21-55): logs and
returns `None` on connection errors, other exceptions and non-200 statuses;
returns a status string only on 200. -/
def send_slack_notification (o : HttpOutcome) : Option String :=
  match o with
  | HttpOutcome.response status _ =>
    if status ≠ 200 then Option.none
    else Option.some "Slack notification succeeded."
  | HttpOutcome.connectionError => Option.none
  | HttpOutcome.otherError => Option.none

/-- `send_opsgenie_alert` (`checkpoint/util.py` lines 59-99): returns
`"success"` on a 202 response; on every other outcome control falls through
to the final `return "error"`. -/
def send_opsgenie_alert (o : HttpOutcome) : Option String :=
  match o with
  | HttpOutcome.response status _ =>
    if status ≠ 202 then Option.some "error" else Option.some "success"
  | HttpOutcome.connectionError => Option.some "error"
  | HttpOutcome.otherError => Option.some "error"

/-- `send_microsoft_teams_notifications` (`checkpoint/util.py` lines
102-127): `None` on every failure, a status string only on 200. -/
def send_microsoft_teams_notifications (o : HttpOutcome) : Option String :=
  match o with
  | HttpOutcome.response status _ =>
    if status ≠ 200 then Option.none
    else Option.some "Microsoft Teams notification succeeded."
  | HttpOutcome.connectionError => Option.none
  | HttpOutcome.otherError => Option.none

/-- `send_webhook_notifications` (`checkpoint/util.py` lines 130-159):
`None` on every failure, a platform-tagged status string only on 200. -/
def send_webhook_notifications (o : HttpOutcome) (targetPlatform : String) :
    Option String :=
  match o with
  | HttpOutcome.response status _ =>
    if status ≠ 200 then Option.none
    else Option.some (targetPlatform ++ " notification succeeded.")
  | HttpOutcome.connectionError => Option.none
  | HttpOutcome.otherError => Option.none

/-- The outcome of the SMTP conversation performed by `send_email`. -/
inductive SmtpOutcome where
  | connectError
  | authError
  | otherError
  | delivered
deriving Repr, DecidableEq

/-- `send_email` (`checkpoint/util.py` lines 163-205): logs and returns
`None` on SMTP connection/authentication/other errors; returns `"success"`
only when the message was sent. -/
def send_email (o : SmtpOutcome) : Option String :=
  match o with
  | SmtpOutcome.connectError => Option.none
  | SmtpOutcome.authError => Option.none
  | SmtpOutcome.otherError => Option.none
  | SmtpOutcome.delivered => Option.some "success"

/-- C6 (counterexample): the claim says every sender returns a `None`/falsy
value on delivery failure.  The Opsgenie sender does not: on a connection
error it returns the string `"error"`, which is non-empty and therefore
truthy. -/
theorem C6_counterexample :
    send_opsgenie_alert HttpOutcome.connectionError = Option.some "error" ∧
    truthy (PyVal.str "error") = true := by
  constructor
  · rfl
  · decide

/-- C6 (amended): the Slack, Teams, generic-webhook and email senders never
raise and return `None` on every delivery failure (connection error,
non-success status, other exception), and a non-empty status string only on
success; the Opsgenie sender also never raises but returns the non-falsy
string `"error"` on failure and `"success"` on success, so a non-falsy
return from it is not a success marker. -/
theorem C6_sender_return_values :
    (∀ s t, s ≠ 200 → send_slack_notification (HttpOutcome.response s t) =
      Option.none) ∧
    send_slack_notification HttpOutcome.connectionError = Option.none ∧
    send_slack_notification HttpOutcome.otherError = Option.none ∧
    (∀ t, send_slack_notification (HttpOutcome.response 200 t) =
      Option.some "Slack notification succeeded.") ∧
    (∀ s t, s ≠ 200 →
      send_microsoft_teams_notifications (HttpOutcome.response s t) =
        Option.none) ∧
    send_microsoft_teams_notifications HttpOutcome.connectionError =
      Option.none ∧
    send_microsoft_teams_notifications HttpOutcome.otherError = Option.none ∧
    (∀ s t p, s ≠ 200 →
      send_webhook_notifications (HttpOutcome.response s t) p = Option.none) ∧
    (∀ p, send_webhook_notifications HttpOutcome.connectionError p =
      Option.none) ∧
    (∀ p, send_webhook_notifications HttpOutcome.otherError p = Option.none) ∧
    (∀ o, o ≠ SmtpOutcome.delivered → send_email o = Option.none) ∧
    send_email SmtpOutcome.delivered = Option.some "success" ∧
    (∀ s t, s ≠ 202 → send_opsgenie_alert (HttpOutcome.response s t) =
      Option.some "error") ∧
    send_opsgenie_alert HttpOutcome.connectionError = Option.some "error" ∧
    send_opsgenie_alert HttpOutcome.otherError = Option.some "error" ∧
    (∀ t, send_opsgenie_alert (HttpOutcome.response 202 t) =
      Option.some "success") := by
  refine ⟨?_, rfl, rfl, ?_, ?_, rfl, rfl, ?_, ?_, ?_, ?_, rfl, ?_, rfl, rfl, ?_⟩
  · intro s t hs; simp [send_slack_notification, hs]
  · intro t; simp [send_slack_notification]
  · intro s t hs; simp [send_microsoft_teams_notifications, hs]
  · intro s t p hs; simp [send_webhook_notifications, hs]
  · intro p; rfl
  · intro p; rfl
  · intro o ho
    cases o with
    | connectError => rfl
    | authError => rfl
    | otherError => rfl
    | delivered => exact absurd rfl ho
  · intro s t hs; simp [send_opsgenie_alert, hs]
  · intro t; simp [send_opsgenie_alert]

/-- C6 (witness): the amended theorem applied at concrete outcomes. -/
theorem C6_witness :
    send_slack_notification (HttpOutcome.response 500 "oops") = Option.none ∧
    send_opsgenie_alert (HttpOutcome.response 500 "oops") =
      Option.some "error" ∧
    send_email SmtpOutcome.authError = Option.none :=
  ⟨C6_sender_return_values.1 500 "oops" (by decide),
   (C6_sender_return_values.2.2.2.2.2.2.2.2.2.2.2.2).1 500 "oops" (by decide),
   (C6_sender_return_values.2.2.2.2.2.2.2.2.2.2).1 SmtpOutcome.authError
     (by decide)⟩

/-- Python `a or b` on values: the left operand if truthy, else the right. -/
def pyOr (a b : PyVal) : PyVal :=
  if truthy a then a else b

/-- The attributes of a substituted `CheckpointConfig` read by
`get_substituted_validation_dict` (`checkpoint/util.py` lines 281-311). -/
structure CheckpointConfigS where
  batch_request : Option Dict
  expectation_suite_name : PyVal
  expectation_suite_ge_cloud_id : PyVal
  action_list : PyVal
  evaluation_parameters : Dict
  runtime_configuration : Dict
deriving Repr, DecidableEq

/-- A validation entry as passed to `get_substituted_validation_dict`: the
keys the function reads from the `validation_dict` mapping, each `.get`
defaulting to `None` (or to `{}` where the source supplies that default). -/
structure ValidationDict where
  batch_request : Option Dict
  expectation_suite_name : PyVal
  expectation_suite_ge_cloud_id : PyVal
  action_list : Option PyVal
  evaluation_parameters : Option Dict
  runtime_configuration : Option Dict
  name : PyVal
deriving Repr, DecidableEq

/-- Modelled from the spec: `CheckpointConfig.get_updated_action_list`
(`data_context/types/base.py`, not under `src/`) — the effective action list
with "entry overrides win over top-level"; an absent/empty entry-level list
leaves the stored list unchanged. -/
def get_updated_action_list (base other : PyVal) : PyVal :=
  if truthy other then other else base

/-- Modelled from the spec: `nested_update` (`core/util.py`, not under
`src/`) — the "(merged)" evaluation-parameters / runtime-configuration
mapping, with entry-level values taking precedence. -/
def nested_update (base other : Dict) : Dict :=
  Dict.update base other

/-- The substituted validation dictionary built by
`get_substituted_validation_dict`: its `batch_request` value is the typed
request object (or `None`), the rest are plain values. -/
structure SubstitutedValidation where
  batch_request : Option ResolvedBatchRequest
  expectation_suite_name : PyVal
  expectation_suite_ge_cloud_id : PyVal
  action_list : PyVal
  evaluation_parameters : Dict
  runtime_configuration : Dict
  name : Option PyVal
deriving Repr, DecidableEq

/-- `validate_validation_dict` (`checkpoint/util.py` lines 314-322): the
three pre-execution invariants, each with its own `CheckpointError`. -/
def validate_validation_dict (v : SubstitutedValidation) :
    Except PyErr Unit :=
  if v.batch_request.isNone then
    Except.error (PyErr.checkpointError "validation batch_request cannot be None")
  else if !(truthy v.expectation_suite_name) then
    Except.error (PyErr.checkpointError
      "validation expectation_suite_name must be specified")
  else if !(truthy v.action_list) then
    Except.error (PyErr.checkpointError "validation action_list cannot be empty")
  else Except.ok ()

/-- `get_substituted_validation_dict` (`checkpoint/util.py` lines 281-311):
resolve the entry's batch request against the top-level one (non-cloud
defaults), fall back to top-level suite name / cloud id via Python `or`,
merge action list and parameter mappings, then validate. -/
def get_substituted_validation_dict (cfg : CheckpointConfigS)
    (vd : ValidationDict) : Except PyErr SubstitutedValidation :=
  match (getRuntimeBatchRequest cfg.batch_request vd.batch_request false "").1 with
  | Except.error e => Except.error e
  | Except.ok br =>
    let sv : SubstitutedValidation :=
      ⟨br,
       pyOr vd.expectation_suite_name cfg.expectation_suite_name,
       pyOr vd.expectation_suite_ge_cloud_id cfg.expectation_suite_ge_cloud_id,
       get_updated_action_list cfg.action_list
         (vd.action_list.getD (PyVal.dict [])),
       nested_update cfg.evaluation_parameters
         (vd.evaluation_parameters.getD []),
       nested_update cfg.runtime_configuration
         (vd.runtime_configuration.getD []),
       if vd.name ≠ PyVal.none then Option.some vd.name else Option.none⟩
    match validate_validation_dict sv with
    | Except.error e => Except.error e
    | Except.ok _ => Except.ok sv


theorem getRuntimeBatchRequestAux_nil_top (e : Dict) (now : String)
    (hrp : Dict.get e "runtime_parameters" = Option.none) :
    getRuntimeBatchRequestAux [] e false now =
      (Except.ok (Option.some ⟨BRClass.batchRequest,
        filterPropertiesDict e
          (Option.some (BRClass.fieldNames BRClass.batchRequest))
          false false⟩), e) := by
  have hmerge : dictKwMerge ([] : Dict) e = Except.ok e := by
    have hfind : e.find? (fun p => Dict.containsKey ([] : Dict) p.1) =
        Option.none :=
      List.find?_eq_none.mpr (fun x _ => by simp [Dict.containsKey, Dict.get])
    simp [dictKwMerge, hfind]
  have hpop : popBatchData e = Except.ok (e, Option.none) := by
    simp [popBatchData, hrp]
  have hconf : e.find? (conflictPred ([] : Dict)) = Option.none :=
    List.find?_eq_none.mpr (fun x _ => by simp [conflictPred, Dict.get])
  have hcont : Dict.containsKey e "runtime_parameters" = false := by
    simp [Dict.containsKey, hrp]
  have hupd : Dict.update e [] = e := rfl
  simp [getRuntimeBatchRequestAux, hmerge, hpop, hconf, hcont,
    buildBatchRequest, hupd]

/-- C7: for every substituted validation entry, a null batch-request, an
empty/missing expectation-suite-name (after the top-level fallback), and an
empty/missing action-list each raise a `CheckpointError` before execution,
with a distinct message per violation; and end-to-end, an entry with no
suite name and no top-level default makes `get_substituted_validation_dict`
raise the `CheckpointError` whose message contains
"expectation_suite_name must be specified". -/
theorem C7_validation_invariants :
    (∀ sv : SubstitutedValidation, sv.batch_request = Option.none →
      validate_validation_dict sv = Except.error
        (PyErr.checkpointError "validation batch_request cannot be None")) ∧
    (∀ sv : SubstitutedValidation, sv.batch_request.isSome →
      truthy sv.expectation_suite_name = false →
      validate_validation_dict sv = Except.error
        (PyErr.checkpointError
          "validation expectation_suite_name must be specified")) ∧
    (∀ sv : SubstitutedValidation, sv.batch_request.isSome →
      truthy sv.expectation_suite_name = true →
      truthy sv.action_list = false →
      validate_validation_dict sv = Except.error
        (PyErr.checkpointError "validation action_list cannot be empty")) ∧
    ("validation batch_request cannot be None" ≠
      "validation expectation_suite_name must be specified" ∧
     "validation batch_request cannot be None" ≠
      "validation action_list cannot be empty" ∧
     "validation expectation_suite_name must be specified" ≠
      "validation action_list cannot be empty") ∧
    ("validation expectation_suite_name must be specified" =
      "validation " ++ "expectation_suite_name must be specified") ∧
    (∀ (cfg : CheckpointConfigS) (vd : ValidationDict) (e : Dict),
      cfg.batch_request = Option.none →
      truthy cfg.expectation_suite_name = false →
      vd.batch_request = Option.some e →
      truthy vd.expectation_suite_name = false →
      Dict.get e "runtime_parameters" = Option.none →
      get_substituted_validation_dict cfg vd = Except.error
        (PyErr.checkpointError
          "validation expectation_suite_name must be specified")) := by
  refine ⟨?_, ?_, ?_, ⟨by decide, by decide, by decide⟩, rfl, ?_⟩
  · intro sv h
    simp [validate_validation_dict, h]
  · intro sv h1 h2
    rw [Option.isSome_iff_exists] at h1
    obtain ⟨r, hr⟩ := h1
    simp [validate_validation_dict, hr, h2]
  · intro sv h1 h2 h3
    rw [Option.isSome_iff_exists] at h1
    obtain ⟨r, hr⟩ := h1
    simp [validate_validation_dict, hr, h2, h3]
  · intro cfg vd e hcfg hcsuite hvd hvsuite hrp
    have hbr : (getRuntimeBatchRequest cfg.batch_request vd.batch_request
        false "").1 = Except.ok (Option.some ⟨BRClass.batchRequest,
          filterPropertiesDict e
            (Option.some (BRClass.fieldNames BRClass.batchRequest))
            false false⟩) := by
      rw [hcfg, hvd]
      simp [getRuntimeBatchRequest, getRuntimeBatchRequestAux_nil_top e "" hrp]
    simp only [get_substituted_validation_dict]
    rw [hbr]
    simp [validate_validation_dict, pyOr, hvsuite, hcsuite]

/-- C7 (witness): the invariants applied at concrete inputs — a null
batch-request entry, and an end-to-end entry with a batch request but no
suite name anywhere. -/
theorem C7_witness :
    validate_validation_dict
      ⟨Option.none, PyVal.str "s", PyVal.none, PyVal.list [PyVal.str "a"],
        [], [], Option.none⟩ =
      Except.error (PyErr.checkpointError
        "validation batch_request cannot be None") ∧
    get_substituted_validation_dict
      ⟨Option.none, PyVal.none, PyVal.none, PyVal.list [], [], []⟩
      ⟨Option.some [("datasource_name", PyVal.str "d1")], PyVal.none,
        PyVal.none, Option.none, Option.none, Option.none, PyVal.none⟩ =
      Except.error (PyErr.checkpointError
        "validation expectation_suite_name must be specified") :=
  ⟨C7_validation_invariants.1 _ rfl,
   C7_validation_invariants.2.2.2.2.2
     ⟨Option.none, PyVal.none, PyVal.none, PyVal.list [], [], []⟩
     ⟨Option.some [("datasource_name", PyVal.str "d1")], PyVal.none,
       PyVal.none, Option.none, Option.none, Option.none, PyVal.none⟩
     [("datasource_name", PyVal.str "d1")]
     rfl (by decide) rfl (by decide) (by decide)⟩

/-- A checkpoint-store key: either a cloud identifier (`GeCloudIdentifier`
with a resource type) or a name-based `ConfigurationIdentifier`. -/
inductive StoreKey where
  | cloudKey (resourceType : String) (id : PyVal)
  | configKey (name : PyVal)
deriving Repr, DecidableEq

/-- The key construction of `get_checkpoint` (`checkpoint/toolkit.py` lines
156-163): a cloud key whenever `ge_cloud_id` is truthy, otherwise a
name-based key. -/
def checkpointLookupKey (name geCloudId : PyVal) : StoreKey :=
  if truthy geCloudId then StoreKey.cloudKey "contract" geCloudId
  else StoreKey.configKey name

/-- The legacy-configuration test of `get_checkpoint` (lines 176-195):
`batches` must be present and either empty or carry both `batch_kwargs` and
`expectation_suite_names` among its items' keys.  (Non-mapping items, which
would raise in Python, contribute no keys here; no claim exercises them.) -/
def legacyBatchesOk (cfg : Dict) : Bool :=
  match Dict.get cfg "batches" with
  | Option.some (PyVal.list items) =>
    items.isEmpty ||
    (let allKeys := items.flatMap (fun it => match it with
        | PyVal.dict d => Dict.keys d
        | _ => [])
     allKeys.contains "batch_kwargs" &&
       allKeys.contains "expectation_suite_names")
  | _ => false

/-- `get_checkpoint` (`checkpoint/toolkit.py` lines 150-214): build the
lookup key, fetch the stored configuration, run the legacy check when
`config_version` is null, overwrite `name` with the supplied name when one
was given, and clean falsy fields.  The returned mapping is what is passed
to `instantiate_class_from_config`. -/
def get_checkpoint (store : StoreKey → Option Dict) (name geCloudId : PyVal) :
    Except PyErr Dict :=
  let key := checkpointLookupKey name geCloudId
  match store key with
  | Option.none =>
    Except.error (PyErr.checkpointNotFoundError
      "Non-existent Checkpoint configuration")
  | Option.some checkpointConfig =>
    if (Dict.get checkpointConfig "config_version").getD PyVal.none =
        PyVal.none ∧ legacyBatchesOk checkpointConfig = false then
      Except.error (PyErr.checkpointError
        "Attempt to instantiate LegacyCheckpoint with insufficient and/or incorrect arguments.")
    else
      let config := if truthy name then
        Dict.put checkpointConfig "name" name else checkpointConfig
      Except.ok (filterPropertiesDict config Option.none true true)

/-- The chained payload test shared by `add_checkpoint` and `run_checkpoint`
(`toolkit.py` lines 99-104, 108-113, 337-342, 346-353): given the non-null
value of a `batch_request` key, evaluate
`br.get("runtime_parameters")` and, when that is a non-null mapping, its
`batch_data` value.  A DataFrame has a `.get` that finds no such key; other
non-mapping values raise `AttributeError`. -/
def batchDataOf (br : PyVal) : Except PyErr (Option PyVal) :=
  match br with
  | PyVal.dict brd =>
    match Dict.get brd "runtime_parameters" with
    | Option.some (PyVal.dict rp) =>
      match Dict.get rp "batch_data" with
      | Option.some bd =>
        if bd = PyVal.none then Except.ok Option.none
        else Except.ok (Option.some bd)
      | Option.none => Except.ok Option.none
    | Option.some PyVal.none => Except.ok Option.none
    | Option.some (PyVal.payload _) => Except.ok Option.none
    | Option.some _ =>
      Except.error (PyErr.attributeError "runtime_parameters has no attribute get")
    | Option.none => Except.ok Option.none
  | PyVal.payload _ => Except.ok Option.none
  | _ => Except.error (PyErr.attributeError "batch_request has no attribute get")

/-- The validations loop of `add_checkpoint` (lines 97-107): raise
`InvalidConfigError` at the first entry whose batch-request carries a
non-null `batch_data`, naming the entry's index. -/
def checkValidationsForPayload (storeName : String) :
    List PyVal → Nat → Except PyErr Unit
  | [], _ => Except.ok ()
  | v :: rest, idx =>
    match v with
    | PyVal.dict vd =>
      let br := (Dict.get vd "batch_request").getD PyVal.none
      if br = PyVal.none then checkValidationsForPayload storeName rest (idx + 1)
      else
        match batchDataOf br with
        | Except.error e => Except.error e
        | Except.ok (Option.some _) =>
          Except.error (PyErr.invalidConfigError
            ("batch_data found in validations at index " ++ toString idx ++
             " cannot be saved to CheckpointStore \"" ++ storeName ++ "\""))
        | Except.ok Option.none =>
          checkValidationsForPayload storeName rest (idx + 1)
    | _ =>
      Except.error (PyErr.attributeError "validation entry has no attribute get")

/-- `add_checkpoint` (`checkpoint/toolkit.py` lines 36-147), restricted to
the part that decides the claim: the payload guard (lines 96-116) followed
by the falsy-field cleanup (lines 118-120).  The returned mapping is the
configuration that proceeds to instantiation and to
`checkpoint_store.set`.  Note the top-level `batch_request` test is the
`elif` branch, reached only when `validations` is null. -/
def add_checkpoint (storeName : String) (cfg : Dict) : Except PyErr Dict :=
  match (Dict.get cfg "validations").getD PyVal.none with
  | PyVal.none =>
    let br := (Dict.get cfg "batch_request").getD PyVal.none
    if br = PyVal.none then
      Except.ok (filterPropertiesDict cfg Option.none true true)
    else
      match batchDataOf br with
      | Except.error e => Except.error e
      | Except.ok (Option.some _) =>
        Except.error (PyErr.invalidConfigError
          ("batch_data found in batch_request cannot be saved to CheckpointStore \""
           ++ storeName ++ "\""))
      | Except.ok Option.none =>
        Except.ok (filterPropertiesDict cfg Option.none true true)
  | PyVal.list vs =>
    match checkValidationsForPayload storeName vs 0 with
    | Except.error e => Except.error e
    | Except.ok _ => Except.ok (filterPropertiesDict cfg Option.none true true)
  | _ => Except.error (PyErr.typeError "validations object is not iterable")

/-- C10: when `get_checkpoint` receives both a name and a cloud id, the
store lookup key is built from the cloud identifier only (any name yields
the same key), while the supplied name is still written into the returned
configuration's `name` field, overriding whatever name the stored payload
carried. -/
theorem C10_cloud_lookup_and_name_override
    (store : StoreKey → Option Dict) (name geCloudId : PyVal) (cfg : Dict)
    (hgc : truthy geCloudId = true) (hname : truthy name = true)
    (hstore : store (StoreKey.cloudKey "contract" geCloudId) = Option.some cfg)
    (hver : (Dict.get cfg "config_version").getD PyVal.none ≠ PyVal.none) :
    (∀ otherName : PyVal, checkpointLookupKey otherName geCloudId =
      StoreKey.cloudKey "contract" geCloudId) ∧
    ∃ out, get_checkpoint store name geCloudId = Except.ok out ∧
      Dict.get out "name" = Option.some name := by
  have hkey : ∀ otherName : PyVal, checkpointLookupKey otherName geCloudId =
      StoreKey.cloudKey "contract" geCloudId := by
    intro otherName
    simp [checkpointLookupKey, hgc]
  refine ⟨hkey, ?_⟩
  refine ⟨filterPropertiesDict (Dict.put cfg "name" name) Option.none true true,
    ?_, ?_⟩
  · simp only [get_checkpoint, hkey name, hstore]
    simp [hver, hname]
  · show Dict.get ((Dict.put cfg "name" name).filter (fun p => truthy p.2))
        "name" = Option.some name
    exact Dict.get_filter_of_get _ _ _ _ (Dict.get_put_self cfg "name" name)
      hname

/-- C10 (witness): the theorem applied at a concrete store holding one
cloud-keyed configuration whose stored name differs from the supplied one. -/
theorem C10_witness :
    ∃ out, get_checkpoint
      (fun key => if key = StoreKey.cloudKey "contract" (PyVal.str "gid-1")
        then Option.some
          [("name", PyVal.str "stored_name"), ("config_version", PyVal.num 1)]
        else Option.none)
      (PyVal.str "supplied_name") (PyVal.str "gid-1") = Except.ok out ∧
      Dict.get out "name" = Option.some (PyVal.str "supplied_name") :=
  (C10_cloud_lookup_and_name_override _ (PyVal.str "supplied_name")
    (PyVal.str "gid-1")
    [("name", PyVal.str "stored_name"), ("config_version", PyVal.num 1)]
    (by decide) (by decide) (by simp) (by decide)).2

/-- C3: the claim says any `add_checkpoint` call whose top-level
batch-request or any validation entry's batch-request carries a non-null
`runtime_parameters.batch_data` raises `InvalidConfigError` before the
store write.  The top-level test sits in an `elif` reached only when
`validations` is null (`toolkit.py` lines 97-116): with a payload-free
`validations` list present, a top-level in-memory payload is neither
rejected nor stripped — the cleaned configuration that proceeds to the
store write still contains it.  Without `validations`, the same top-level
payload is rejected, which shows the intended rule. -/
theorem C3_top_level_payload_escapes_store_guard :
    add_checkpoint "checkpoint_store"
      [("name", PyVal.str "cp"),
       ("batch_request", PyVal.dict [("runtime_parameters",
          PyVal.dict [("batch_data", PyVal.payload 7)])]),
       ("validations", PyVal.list [PyVal.dict [("batch_request",
          PyVal.dict [("datasource_name", PyVal.str "d1")])]])] =
    Except.ok
      [("name", PyVal.str "cp"),
       ("batch_request", PyVal.dict [("runtime_parameters",
          PyVal.dict [("batch_data", PyVal.payload 7)])]),
       ("validations", PyVal.list [PyVal.dict [("batch_request",
          PyVal.dict [("datasource_name", PyVal.str "d1")])]])] ∧
    add_checkpoint "checkpoint_store"
      [("name", PyVal.str "cp"),
       ("batch_request", PyVal.dict [("runtime_parameters",
          PyVal.dict [("batch_data", PyVal.payload 7)])]),
       ("validations", PyVal.none)] =
    Except.error (PyErr.invalidConfigError
      "batch_data found in batch_request cannot be saved to CheckpointStore \"checkpoint_store\"") := by
  constructor
  · rfl
  · rfl

/-- The call-time keyword arguments of `run_checkpoint` that form
`checkpoint_config_from_call_args` (`toolkit.py` lines 309-324); each
defaults to `None` when the caller does not supply it. -/
structure RunCallArgs where
  template_name : PyVal
  run_name_template : PyVal
  expectation_suite_name : PyVal
  batch_request : PyVal
  action_list : PyVal
  evaluation_parameters : PyVal
  runtime_configuration : PyVal
  validations : PyVal
  profilers : PyVal
  run_id : PyVal
  run_name : PyVal
  run_time : PyVal
  result_format : PyVal
  expectation_suite_ge_cloud_id : PyVal
deriving Repr, DecidableEq

/-- A `run_checkpoint` invocation with every optional argument omitted. -/
def RunCallArgs.allNone : RunCallArgs :=
  ⟨PyVal.none, PyVal.none, PyVal.none, PyVal.none, PyVal.none, PyVal.none,
   PyVal.none, PyVal.none, PyVal.none, PyVal.none, PyVal.none, PyVal.none,
   PyVal.none, PyVal.none⟩

/-- The dict literal `checkpoint_config_from_call_args` (lines 309-324),
with `result_format` already resolved. -/
def callArgsDict (a : RunCallArgs) (resultFormat : PyVal) : Dict :=
  [("template_name", a.template_name),
   ("run_name_template", a.run_name_template),
   ("expectation_suite_name", a.expectation_suite_name),
   ("batch_request", a.batch_request),
   ("action_list", a.action_list),
   ("evaluation_parameters", a.evaluation_parameters),
   ("runtime_configuration", a.runtime_configuration),
   ("validations", a.validations),
   ("profilers", a.profilers),
   ("run_id", a.run_id),
   ("run_name", a.run_name),
   ("run_time", a.run_time),
   ("result_format", resultFormat),
   ("expectation_suite_ge_cloud_id", a.expectation_suite_ge_cloud_id)]

/-- Lines 298-304 of `toolkit.py`: when the stored configuration's
`runtime_configuration` contains `result_format` and the call-time value is
falsy, pop the stored value (mutating the stored mapping) and use it;
Python's lazy `or` skips the pop when the call-time value is truthy.
Python `in` on a string is a substring test and `.pop` then raises; `in` on
null or a number raises `TypeError`. -/
def resolveResultFormat (storeCfg : Dict) (rf : PyVal) :
    Except PyErr (PyVal × Dict) :=
  match Dict.get storeCfg "runtime_configuration" with
  | Option.some (PyVal.dict rc) =>
    if Dict.containsKey rc "result_format" then
      if truthy rf then Except.ok (rf, storeCfg)
      else Except.ok ((Dict.get rc "result_format").getD PyVal.none,
        Dict.put storeCfg "runtime_configuration"
          (PyVal.dict (Dict.pop rc "result_format")))
    else Except.ok (rf, storeCfg)
  | Option.some (PyVal.str s) =>
    if (s.splitOn "result_format").length > 1 then
      if truthy rf then Except.ok (rf, storeCfg)
      else Except.error (PyErr.attributeError "str has no attribute pop")
    else Except.ok (rf, storeCfg)
  | Option.some (PyVal.list xs) =>
    if xs.contains (PyVal.str "result_format") then
      if truthy rf then Except.ok (rf, storeCfg)
      else Except.error (PyErr.typeError "list pop argument must be an integer")
    else Except.ok (rf, storeCfg)
  | Option.some PyVal.none =>
    Except.error (PyErr.typeError "argument of type NoneType is not iterable")
  | Option.some (PyVal.bool _) =>
    Except.error (PyErr.typeError "argument of type bool is not iterable")
  | Option.some (PyVal.num _) =>
    Except.error (PyErr.typeError "argument of type int is not iterable")
  | Option.some (PyVal.payload _) => Except.ok (rf, storeCfg)
  | Option.none => Except.ok (rf, storeCfg)

/-- Lines 296-331 of `run_checkpoint`: resolve `result_format` (defaulting
to the SUMMARY mapping when still null), restrict the stored configuration
to the call-time allow-list, then overlay the call-time arguments. -/
def runCheckpointMergedConfig (storeCfg : Dict) (a : RunCallArgs) :
    Except PyErr Dict :=
  match resolveResultFormat storeCfg a.result_format with
  | Except.error e => Except.error e
  | Except.ok (rf, storeCfg2) =>
    let rf2 := if rf = PyVal.none then
      PyVal.dict [("result_format", PyVal.str "SUMMARY")] else rf
    let ca := callArgsDict a rf2
    Except.ok (Dict.update
      (storeCfg2.filter (fun p => Dict.containsKey ca p.1)) ca)

/-- Lines 336-345 of `run_checkpoint` for one validation entry: pop a
non-null `batch_data` out of the entry's batch-request, returning the
mutated entry and the popped payload. -/
def popValidationBatchData (v : PyVal) : Except PyErr (PyVal × Option PyVal) :=
  match v with
  | PyVal.dict vd =>
    match (Dict.get vd "batch_request").getD PyVal.none with
    | PyVal.dict brd =>
      match Dict.get brd "runtime_parameters" with
      | Option.some (PyVal.dict rp) =>
        match Dict.get rp "batch_data" with
        | Option.some bd =>
          if bd = PyVal.none then Except.ok (v, Option.none)
          else Except.ok (PyVal.dict (Dict.put vd "batch_request"
            (PyVal.dict (Dict.put brd "runtime_parameters"
              (PyVal.dict (Dict.pop rp "batch_data"))))), Option.some bd)
        | Option.none => Except.ok (v, Option.none)
      | Option.some PyVal.none => Except.ok (v, Option.none)
      | Option.some (PyVal.payload _) => Except.ok (v, Option.none)
      | Option.some _ =>
        Except.error (PyErr.attributeError "runtime_parameters has no attribute get")
      | Option.none => Except.ok (v, Option.none)
    | PyVal.none => Except.ok (v, Option.none)
    | PyVal.payload _ => Except.ok (v, Option.none)
    | _ =>
      Except.error (PyErr.attributeError "batch_request has no attribute get")
  | _ =>
    Except.error (PyErr.attributeError "validation entry has no attribute get")

/-- The collection loop (lines 335-345): `batch_data_list` receives only
the payloads that were actually popped — no placeholder is appended for
entries without one. -/
def popValidationsLoop : List PyVal → Except PyErr (List PyVal × List PyVal)
  | [] => Except.ok ([], [])
  | v :: rest =>
    match popValidationBatchData v with
    | Except.error e => Except.error e
    | Except.ok (v2, bd) =>
      match popValidationsLoop rest with
      | Except.error e => Except.error e
      | Except.ok (vs2, bds) =>
        Except.ok (v2 :: vs2,
          match bd with
          | Option.some b => b :: bds
          | Option.none => bds)

/-- The item assignment
`val["batch_request"]["runtime_parameters"]["batch_data"] = bd`
(lines 363-365): `KeyError` when a level is missing, `TypeError` when a
level is not a mapping. -/
def injectBatchData (v : PyVal) (bd : PyVal) : Except PyErr PyVal :=
  match v with
  | PyVal.dict vd =>
    match Dict.get vd "batch_request" with
    | Option.none => Except.error (PyErr.keyError "batch_request")
    | Option.some (PyVal.dict brd) =>
      match Dict.get brd "runtime_parameters" with
      | Option.none => Except.error (PyErr.keyError "runtime_parameters")
      | Option.some (PyVal.dict rp) =>
        Except.ok (PyVal.dict (Dict.put vd "batch_request"
          (PyVal.dict (Dict.put brd "runtime_parameters"
            (PyVal.dict (Dict.put rp "batch_data" bd))))))
      | Option.some _ =>
        Except.error (PyErr.typeError "object does not support item assignment")
    | Option.some _ =>
      Except.error (PyErr.typeError "object is not subscriptable")
  | _ => Except.error (PyErr.typeError "object is not subscriptable")

/-- The re-injection loop (lines 360-365): enumerate the filtered
validations and index into `batch_data_list` — `IndexError` past its end,
and the `is not None` guard skips null slots. -/
def reinjectLoop (bds : List PyVal) : List PyVal → Nat → Except PyErr (List PyVal)
  | [], _ => Except.ok []
  | v :: rest, idx =>
    match bds[idx]? with
    | Option.none => Except.error PyErr.indexError
    | Option.some bd =>
      if bd = PyVal.none then
        match reinjectLoop bds rest (idx + 1) with
        | Except.error e => Except.error e
        | Except.ok vs => Except.ok (v :: vs)
      else
        match injectBatchData v bd with
        | Except.error e => Except.error e
        | Except.ok v2 =>
          match reinjectLoop bds rest (idx + 1) with
          | Except.error e => Except.error e
          | Except.ok vs => Except.ok (v2 :: vs)

/-- Lines 332-369 of `run_checkpoint` (non-cloud mode): pop every in-memory
payload out of the merged configuration, apply the falsy-field cleanup,
then re-inject the payloads. -/
def nonCloudShuffle (merged : Dict) : Except PyErr Dict :=
  match (Dict.get merged "validations").getD PyVal.none with
  | PyVal.none =>
    match (Dict.get merged "batch_request").getD PyVal.none with
    | PyVal.dict brd =>
      match Dict.get brd "runtime_parameters" with
      | Option.some (PyVal.dict rp) =>
        match Dict.get rp "batch_data" with
        | Option.some bd =>
          if bd = PyVal.none then
            Except.ok (filterPropertiesDict merged Option.none true true)
          else
            let merged2 := Dict.put merged "batch_request"
              (PyVal.dict (Dict.put brd "runtime_parameters"
                (PyVal.dict (Dict.pop rp "batch_data"))))
            let filtered := filterPropertiesDict merged2 Option.none true true
            match Dict.get filtered "batch_request" with
            | Option.none => Except.error (PyErr.keyError "batch_request")
            | Option.some (PyVal.dict fbrd) =>
              match Dict.get fbrd "runtime_parameters" with
              | Option.none => Except.error (PyErr.keyError "runtime_parameters")
              | Option.some (PyVal.dict frp) =>
                Except.ok (Dict.put filtered "batch_request"
                  (PyVal.dict (Dict.put fbrd "runtime_parameters"
                    (PyVal.dict (Dict.put frp "batch_data" bd)))))
              | Option.some _ =>
                Except.error (PyErr.typeError "object does not support item assignment")
            | Option.some _ =>
              Except.error (PyErr.typeError "object is not subscriptable")
        | Option.none =>
          Except.ok (filterPropertiesDict merged Option.none true true)
      | Option.some PyVal.none =>
        Except.ok (filterPropertiesDict merged Option.none true true)
      | Option.some (PyVal.payload _) =>
        Except.ok (filterPropertiesDict merged Option.none true true)
      | Option.some _ =>
        Except.error (PyErr.attributeError "runtime_parameters has no attribute get")
      | Option.none =>
        Except.ok (filterPropertiesDict merged Option.none true true)
    | PyVal.none => Except.ok (filterPropertiesDict merged Option.none true true)
    | PyVal.payload _ =>
      Except.ok (filterPropertiesDict merged Option.none true true)
    | _ =>
      Except.error (PyErr.attributeError "batch_request has no attribute get")
  | PyVal.list vs =>
    match popValidationsLoop vs with
    | Except.error e => Except.error e
    | Except.ok (vs2, bds) =>
      let merged2 := Dict.put merged "validations" (PyVal.list vs2)
      let filtered := filterPropertiesDict merged2 Option.none true true
      if bds.isEmpty then Except.ok filtered
      else
        match (Dict.get filtered "validations").getD PyVal.none with
        | PyVal.list fvs =>
          match reinjectLoop bds fvs 0 with
          | Except.error e => Except.error e
          | Except.ok fvs2 =>
            Except.ok (Dict.put filtered "validations" (PyVal.list fvs2))
        | _ => Except.error (PyErr.typeError "NoneType object is not iterable")
  | _ => Except.error (PyErr.typeError "validations object is not iterable")

/-- `run_checkpoint` (`checkpoint/toolkit.py` lines 239-373), restricted to
the configuration-merging part that decides the claims (lines 289-373): the
returned mapping is `checkpoint_run_arguments`, the keyword arguments
passed on to `checkpoint.run`.  `storeCfg` is
`checkpoint.config.to_json_dict()` as loaded by `get_checkpoint`. -/
def run_checkpoint (storeCfg : Dict) (a : RunCallArgs) (geCloudMode : Bool)
    (kwargs : Dict) : Except PyErr Dict :=
  match runCheckpointMergedConfig storeCfg a with
  | Except.error e => Except.error e
  | Except.ok merged =>
    if geCloudMode then dictKwMerge merged kwargs
    else
      match nonCloudShuffle merged with
      | Except.error e => Except.error e
      | Except.ok cfg2 => dictKwMerge cfg2 kwargs

/-- C4: the claim says every in-memory payload popped before the falsy-field
cleanup is re-injected into the batch-request of the same entry it came
from.  The collection loop appends only the payloads it pops, with no
placeholder for payload-free entries, while the re-injection loop indexes
`batch_data_list` by the entry's position (its `is not None` guard shows
parallel arrays were intended).  With a payload-free entry before a
payload-carrying one, the code injects entry 1's payload into entry 0 and
fails there with `KeyError('runtime_parameters')` — the payload never
returns to its own entry. -/
theorem C4_reinjection_misaligned :
    run_checkpoint []
      ⟨PyVal.none, PyVal.none, PyVal.none, PyVal.none, PyVal.none, PyVal.none,
       PyVal.none,
       PyVal.list
         [PyVal.dict [("batch_request",
            PyVal.dict [("datasource_name", PyVal.str "d1")])],
          PyVal.dict [("batch_request",
            PyVal.dict [("runtime_parameters",
              PyVal.dict [("batch_data", PyVal.payload 3)])])]],
       PyVal.none, PyVal.none, PyVal.none, PyVal.none, PyVal.none, PyVal.none⟩
      false [] = Except.error (PyErr.keyError "runtime_parameters") := by rfl

/-- C2 (counterexample): the claim says that for an allow-list key for which
the call supplies no value, the merged configuration carries the stored
configuration's value.  It does not: the overlay writes the call-time
`None` over the stored `"s1"`. -/
theorem C2_counterexample :
    (runCheckpointMergedConfig [("expectation_suite_name", PyVal.str "s1")]
        RunCallArgs.allNone).map
      (fun m => Dict.get m "expectation_suite_name") =
    Except.ok (Option.some PyVal.none) ∧ PyVal.none ≠ PyVal.str "s1" := by
  constructor
  · rfl
  · decide

/-- C2 (amended): for every allow-list key the merged configuration built
by `run_checkpoint` carries exactly the call-time value — including `None`
when the caller omitted the argument — with only `result_format` resolved
through the stored `runtime_configuration` fallback; stored values for
allow-list keys never survive the overlay, and keys outside the allow-list
do not appear. -/
theorem C2_overlay_replaces_every_allowlist_key
    (storeCfg : Dict) (a : RunCallArgs)
    (hrc : ∀ v, Dict.get storeCfg "runtime_configuration" = Option.some v →
      ∃ rc, v = PyVal.dict rc) :
    ∃ m rf, runCheckpointMergedConfig storeCfg a = Except.ok m ∧
      (∀ k, Dict.get m k = Dict.get (callArgsDict a rf) k) ∧
      (∀ k, k ≠ "result_format" →
        Dict.get m k = Dict.get (callArgsDict a PyVal.none) k) := by
  have hres : ∃ rfv store2, resolveResultFormat storeCfg a.result_format =
      Except.ok (rfv, store2) := by
    cases hget : Dict.get storeCfg "runtime_configuration" with
    | none =>
      refine ⟨a.result_format, storeCfg, ?_⟩
      simp [resolveResultFormat, hget]
    | some v =>
      obtain ⟨rc, rfl⟩ := hrc v hget
      by_cases hck : Dict.containsKey rc "result_format"
      · by_cases htr : truthy a.result_format
        · exact ⟨a.result_format, storeCfg, by simp [resolveResultFormat, hget, hck, htr]⟩
        · exact ⟨(Dict.get rc "result_format").getD PyVal.none,
            Dict.put storeCfg "runtime_configuration"
              (PyVal.dict (Dict.pop rc "result_format")),
            by simp [resolveResultFormat, hget, hck, htr]⟩
      · exact ⟨a.result_format, storeCfg, by simp [resolveResultFormat, hget, hck]⟩
  obtain ⟨rfv, store2, hres⟩ := hres
  have hrun : runCheckpointMergedConfig storeCfg a = Except.ok
      (Dict.update (store2.filter (fun p =>
          Dict.containsKey (callArgsDict a
            (if rfv = PyVal.none then
              PyVal.dict [("result_format", PyVal.str "SUMMARY")] else rfv)) p.1))
        (callArgsDict a
          (if rfv = PyVal.none then
            PyVal.dict [("result_format", PyVal.str "SUMMARY")] else rfv))) := by
    simp [runCheckpointMergedConfig, hres]
  set rf2 := if rfv = PyVal.none then
    PyVal.dict [("result_format", PyVal.str "SUMMARY")] else rfv with hrf2
  have hkeys : (Dict.keys (callArgsDict a rf2)).Nodup := by
    have hk : Dict.keys (callArgsDict a rf2) =
      ["template_name", "run_name_template", "expectation_suite_name",
       "batch_request", "action_list", "evaluation_parameters",
       "runtime_configuration", "validations", "profilers", "run_id",
       "run_name", "run_time", "result_format",
       "expectation_suite_ge_cloud_id"] := rfl
    rw [hk]
    decide
  have hall : ∀ k, Dict.get (Dict.update (store2.filter (fun p =>
      Dict.containsKey (callArgsDict a rf2) p.1)) (callArgsDict a rf2)) k =
      Dict.get (callArgsDict a rf2) k := by
    intro k
    rw [Dict.get_update _ _ hkeys k]
    cases hca : Dict.get (callArgsDict a rf2) k with
    | some v => simp [Option.orElse]
    | none =>
      have hbase : Dict.get (store2.filter (fun p =>
          Dict.containsKey (callArgsDict a rf2) p.1)) k = Option.none := by
        rw [Dict.get_filter_key store2 (Dict.containsKey (callArgsDict a rf2)) k]
        simp [Dict.containsKey, hca]
      simp [Option.orElse, hbase]
  have hother : ∀ k, k ≠ "result_format" →
      Dict.get (callArgsDict a rf2) k =
      Dict.get (callArgsDict a PyVal.none) k := by
    intro k hk
    have hk2 : ¬("result_format" = k) := fun hh => hk hh.symm
    simp [callArgsDict, Dict.get, hk2]
  exact ⟨_, rf2, hrun, hall, fun k hk => (hall k).trans (hother k hk)⟩

/-- C2 (witness): the amended theorem applied at a stored configuration
supplying `expectation_suite_name` and `run_name` with an argument-free
call: both merged values are `None`, not the stored strings. -/
theorem C2_witness :
    (runCheckpointMergedConfig
        [("expectation_suite_name", PyVal.str "s1"),
         ("run_name", PyVal.str "r")] RunCallArgs.allNone).map
      (fun m => Dict.get m "run_name") = Except.ok (Option.some PyVal.none) := by
  obtain ⟨m, rf, hok, hall, hne⟩ :=
    C2_overlay_replaces_every_allowlist_key
      [("expectation_suite_name", PyVal.str "s1"),
       ("run_name", PyVal.str "r")] RunCallArgs.allNone
      (by intro v hv; simp [Dict.get] at hv)
  rw [hok]
  have hr := hne "run_name" (by decide)
  simp only [Except.map]
  rw [hr]
  rfl

theorem OptPyEq2.refl : ∀ o : Option PyVal, OptPyEq2 o o
  | Option.none => rfl
  | Option.some PyVal.none => rfl
  | Option.some (PyVal.bool _) => rfl
  | Option.some (PyVal.str _) => rfl
  | Option.some (PyVal.num _) => rfl
  | Option.some (PyVal.list _) => rfl
  | Option.some (PyVal.dict _) => fun _ => rfl
  | Option.some (PyVal.payload _) => rfl

theorem Dict.containsKey_of_mem (d : Dict) (p : String × PyVal)
    (h : p ∈ d) : Dict.containsKey d p.1 = true := by
  induction d with
  | nil => simp at h
  | cons hd tl ih =>
    obtain ⟨a, w⟩ := hd
    rcases List.mem_cons.mp h with h1 | h2
    · subst h1
      simp [Dict.containsKey, Dict.get]
    · by_cases hk : a = p.1
      · simp [Dict.containsKey, Dict.get, hk]
      · simp only [Dict.containsKey, Dict.get, if_neg hk]
        exact ih h2

theorem Dict.get_eq_none_of_not_contains (d : Dict) (k : String)
    (h : Dict.containsKey d k = false) : Dict.get d k = Option.none := by
  cases hg : Dict.get d k with
  | none => rfl
  | some v => simp [Dict.containsKey, hg] at h

theorem Dict.get_put_pop (rp : Dict) (k : String) (bd : PyVal)
    (h : Dict.get rp k = Option.some bd) :
    ∀ j, Dict.get (Dict.put (Dict.pop rp k) k bd) j = Dict.get rp j := by
  intro j
  by_cases hj : j = k
  · subst hj
    rw [Dict.get_put_self, h]
  · rw [Dict.get_put_ne _ _ _ _ hj, Dict.get_pop_ne _ _ _ hj]

/-- The effect of the pop/restore choreography on the validation-level
mapping: it succeeds whenever `runtime_parameters` is absent, null, a
mapping, or a DataFrame, and the resulting mapping is `==`-equal to the
input (only the position of `batch_data` inside `runtime_parameters` can
change). -/
theorem popBatchData_spec (entry : Dict)
    (hrpWF : ∀ v, Dict.get entry "runtime_parameters" = Option.some v →
      v = PyVal.none ∨ (∃ rp, v = PyVal.dict rp) ∨ ∃ i, v = PyVal.payload i) :
    ∃ val2 popped, popBatchData entry = Except.ok (val2, popped) ∧
      (∀ k, k ≠ "runtime_parameters" → Dict.get val2 k = Dict.get entry k) ∧
      OptPyEq2 (Dict.get val2 "runtime_parameters")
        (Dict.get entry "runtime_parameters") ∧
      (∀ k, Dict.containsKey val2 k = Dict.containsKey entry k) := by
  cases hget : Dict.get entry "runtime_parameters" with
  | none =>
    refine ⟨entry, Option.none, by simp [popBatchData, hget],
      fun _ _ => rfl, ?_, fun _ => rfl⟩
    rw [hget]
    rfl
  | some v =>
    rcases hrpWF v hget with hv | ⟨rp, hv⟩ | ⟨i, hv⟩
    · subst hv
      refine ⟨entry, Option.none, by simp [popBatchData, hget],
        fun _ _ => rfl, ?_, fun _ => rfl⟩
      rw [hget]
      rfl
    · subst hv
      cases hbd : Dict.get rp "batch_data" with
      | none =>
        refine ⟨entry, Option.none, by simp [popBatchData, hget, hbd],
          fun _ _ => rfl, ?_, fun _ => rfl⟩
        rw [hget]
        exact OptPyEq2.refl _
      | some bd =>
        by_cases hbdn : bd = PyVal.none
        · subst hbdn
          refine ⟨entry, Option.none, by simp [popBatchData, hget, hbd],
            fun _ _ => rfl, ?_, fun _ => rfl⟩
          rw [hget]
          exact OptPyEq2.refl _
        · refine ⟨Dict.put entry "runtime_parameters"
            (PyVal.dict (Dict.put (Dict.pop rp "batch_data") "batch_data" bd)),
            Option.some bd, by simp [popBatchData, hget, hbd, hbdn], ?_, ?_, ?_⟩
          · intro k hk
            exact Dict.get_put_ne _ _ _ _ hk
          · rw [Dict.get_put_self]
            exact Dict.get_put_pop rp "batch_data" bd hbd
          · intro k
            by_cases hk : k = "runtime_parameters"
            · subst hk
              simp [Dict.containsKey, Dict.get_put_self, hget]
            · simp [Dict.containsKey, Dict.get_put_ne _ _ _ _ hk]
    · subst hv
      refine ⟨entry, Option.none, by simp [popBatchData, hget],
        fun _ _ => rfl, ?_, fun _ => rfl⟩
      rw [hget]
      rfl

theorem optOrElse_none (o : Option PyVal) :
    o.orElse (fun _ => Option.none) = o := by
  cases o <;> rfl

theorem none_optOrElse (f : Unit → Option PyVal) :
    (Option.none : Option PyVal).orElse f = f () := rfl

theorem some_optOrElse (v : PyVal) (f : Unit → Option PyVal) :
    (Option.some v).orElse f = Option.some v := rfl

/-- C5: for every batch-request pair with no colliding key (and well-formed
`runtime_parameters`), resolution succeeds; the returned request's shape is
runtime iff `runtime_parameters` is present after the merge, and for each
legal field name its value is the entry's when the entry supplies the key
and the top level's otherwise (entry precedence), fields outside the legal
set being stripped.  Dictionary-valued fields are compared as Python `==`
does (by lookup), since the pop/restore step can move `batch_data` to the
last position of `runtime_parameters`. -/
theorem C5_disjoint_pair_resolution
    (top entry : Dict)
    (hnodupTop : (Dict.keys top).Nodup)
    (hdisj : ∀ k, Dict.containsKey top k = true →
      Dict.containsKey entry k = false)
    (hrpWF : ∀ v, Dict.get entry "runtime_parameters" = Option.some v →
      v = PyVal.none ∨ (∃ rp, v = PyVal.dict rp) ∨ ∃ i, v = PyVal.payload i) :
    ∃ r : ResolvedBatchRequest,
      (getRuntimeBatchRequest (Option.some top) (Option.some entry)
        false "").1 = Except.ok (Option.some r) ∧
      r.cls = (if Dict.containsKey (top ++ entry) "runtime_parameters" then
        BRClass.runtimeBatchRequest else BRClass.batchRequest) ∧
      (∀ k, OptPyEq2 (Dict.get r.fields k)
        (if (BRClass.fieldNames r.cls).contains k then
          (Dict.get entry k).orElse (fun _ => Dict.get top k)
          else Option.none)) := by
  obtain ⟨val2, popped, hpop, hne, hrp2, hck⟩ := popBatchData_spec entry hrpWF
  have hmerge : dictKwMerge top entry = Except.ok (top ++ entry) := by
    have hfind : entry.find? (fun p => Dict.containsKey top p.1) =
        Option.none := by
      refine List.find?_eq_none.mpr (fun p hp => ?_)
      have h1 : Dict.containsKey entry p.1 = true :=
        Dict.containsKey_of_mem entry p hp
      intro hc
      rw [hdisj p.1 hc] at h1
      exact Bool.false_ne_true h1
    simp [dictKwMerge, hfind]
  have hconf : val2.find? (conflictPred top) = Option.none := by
    refine List.find?_eq_none.mpr (fun p hp => ?_)
    have h1 : Dict.containsKey val2 p.1 = true :=
      Dict.containsKey_of_mem val2 p hp
    rw [hck p.1] at h1
    have h3 : Dict.containsKey top p.1 = false := by
      cases htc : Dict.containsKey top p.1 with
      | false => rfl
      | true =>
        rw [hdisj p.1 htc] at h1
        exact absurd h1 Bool.false_ne_true
    have h4 : Dict.get top p.1 = Option.none :=
      Dict.get_eq_none_of_not_contains top p.1 h3
    simp [conflictPred, h4]
  have hb : buildBatchRequest top val2
      (if Dict.containsKey (top ++ entry) "runtime_parameters" then
        BRClass.runtimeBatchRequest else BRClass.batchRequest) false "" =
      Except.ok ⟨(if Dict.containsKey (top ++ entry) "runtime_parameters" then
        BRClass.runtimeBatchRequest else BRClass.batchRequest),
        (Dict.update val2 top).filter (fun p =>
          (BRClass.fieldNames
            (if Dict.containsKey (top ++ entry) "runtime_parameters" then
              BRClass.runtimeBatchRequest else BRClass.batchRequest)).contains
            p.1)⟩ := by
    simp [buildBatchRequest, filterPropertiesDict]
  have hwrap : (getRuntimeBatchRequest (Option.some top) (Option.some entry)
      false "").1 = Except.ok (Option.some
      ⟨(if Dict.containsKey (top ++ entry) "runtime_parameters" then
          BRClass.runtimeBatchRequest else BRClass.batchRequest),
        (Dict.update val2 top).filter (fun p =>
          (BRClass.fieldNames
            (if Dict.containsKey (top ++ entry) "runtime_parameters" then
              BRClass.runtimeBatchRequest else BRClass.batchRequest)).contains
            p.1)⟩) := by
    simp only [getRuntimeBatchRequest, Option.getD_some,
      getRuntimeBatchRequestAux, hmerge, hpop, hconf, hb]
  refine ⟨_, hwrap, rfl, ?_⟩
  intro k
  rw [Dict.get_filter_key (Dict.update val2 top)
    (BRClass.fieldNames
      (if Dict.containsKey (top ++ entry) "runtime_parameters" then
        BRClass.runtimeBatchRequest else BRClass.batchRequest)).contains k]
  by_cases hin : (BRClass.fieldNames
      (if Dict.containsKey (top ++ entry) "runtime_parameters" then
        BRClass.runtimeBatchRequest else BRClass.batchRequest)).contains k
  · simp only [hin, if_true]
    rw [Dict.get_update val2 top hnodupTop k]
    cases hgt : Dict.get top k with
    | some v =>
      have htc : Dict.containsKey top k = true := by
        simp [Dict.containsKey, hgt]
      have hge : Dict.get entry k = Option.none :=
        Dict.get_eq_none_of_not_contains entry k (hdisj k htc)
      rw [some_optOrElse, hge, none_optOrElse]
      exact OptPyEq2.refl _
    | none =>
      rw [none_optOrElse, optOrElse_none]
      by_cases hk : k = "runtime_parameters"
      · subst hk
        exact hrp2
      · rw [hne k hk]
        exact OptPyEq2.refl _
  · simp only [hin, if_false]
    rfl

/-- C5 (witness): the theorem applied at the spec's scenario-like pair —
top level supplies `datasource_name`, the entry supplies the remaining
required fields. -/
theorem C5_witness :
    ∃ r : ResolvedBatchRequest,
      (getRuntimeBatchRequest
        (Option.some [("datasource_name", PyVal.str "d1")])
        (Option.some [("data_connector_name", PyVal.str "c1"),
                      ("data_asset_name", PyVal.str "a1")]) false "").1 =
        Except.ok (Option.some r) ∧
      r.cls = (if Dict.containsKey
          ([("datasource_name", PyVal.str "d1")] ++
           [("data_connector_name", PyVal.str "c1"),
            ("data_asset_name", PyVal.str "a1")]) "runtime_parameters" then
        BRClass.runtimeBatchRequest else BRClass.batchRequest) ∧
      (∀ k, OptPyEq2 (Dict.get r.fields k)
        (if (BRClass.fieldNames r.cls).contains k then
          (Dict.get [("data_connector_name", PyVal.str "c1"),
            ("data_asset_name", PyVal.str "a1")] k).orElse
            (fun _ => Dict.get [("datasource_name", PyVal.str "d1")] k)
          else Option.none)) := by
  refine C5_disjoint_pair_resolution _ _ (by decide) ?_ ?_
  · intro k hk
    by_cases h1 : ("datasource_name" : String) = k
    · subst h1
      decide
    · simp [Dict.containsKey, Dict.get, h1] at hk
  · intro v hv
    simp [Dict.get] at hv

theorem Dict.containsKey_append (a b : Dict) (k : String) :
    Dict.containsKey (a ++ b) k =
      (Dict.containsKey a k || Dict.containsKey b k) := by
  simp only [Dict.containsKey, Dict.get_append]
  cases Dict.get a k <;> simp [Option.orElse]

/-- The full case analysis of the pop/restore choreography. -/
theorem popBatchData_cases (val : Dict) :
    (∃ e, popBatchData val = Except.error e) ∨
    popBatchData val = Except.ok (val, Option.none) ∨
    (∃ rp bd, Dict.get val "runtime_parameters" =
        Option.some (PyVal.dict rp) ∧
      Dict.get rp "batch_data" = Option.some bd ∧ bd ≠ PyVal.none ∧
      popBatchData val = Except.ok
        (Dict.put val "runtime_parameters"
          (PyVal.dict (Dict.put (Dict.pop rp "batch_data") "batch_data" bd)),
         Option.some bd)) := by
  cases hget : Dict.get val "runtime_parameters" with
  | none => exact Or.inr (Or.inl (by simp [popBatchData, hget]))
  | some v =>
    cases v with
    | none => exact Or.inr (Or.inl (by simp [popBatchData, hget]))
    | bool b =>
      exact Or.inl ⟨PyErr.attributeError "runtime_parameters has no attribute get",
        by simp [popBatchData, hget]⟩
    | str s =>
      exact Or.inl ⟨PyErr.attributeError "runtime_parameters has no attribute get",
        by simp [popBatchData, hget]⟩
    | num n =>
      exact Or.inl ⟨PyErr.attributeError "runtime_parameters has no attribute get",
        by simp [popBatchData, hget]⟩
    | list xs =>
      exact Or.inl ⟨PyErr.attributeError "runtime_parameters has no attribute get",
        by simp [popBatchData, hget]⟩
    | payload i => exact Or.inr (Or.inl (by simp [popBatchData, hget]))
    | dict rp =>
      cases hbd : Dict.get rp "batch_data" with
      | none => exact Or.inr (Or.inl (by simp [popBatchData, hget, hbd]))
      | some bd =>
        by_cases hbdn : bd = PyVal.none
        · subst hbdn
          exact Or.inr (Or.inl (by simp [popBatchData, hget, hbd]))
        · refine Or.inr (Or.inr ⟨rp, bd, rfl, hbd, hbdn, ?_⟩)
          simp [popBatchData, hget, hbd, hbdn]

/-- Resolution is stable: running the body of `get_runtime_batch_request` a
second time, on the validation mapping as left behind by the first run,
returns the same result and the same state; and the state left behind is
`==`-equal to the input mapping. -/
theorem getRuntimeBatchRequestAux_idem (top val : Dict) (now : String) :
    getRuntimeBatchRequestAux top
      (getRuntimeBatchRequestAux top val false now).2 false now =
      getRuntimeBatchRequestAux top val false now ∧
    DictEq2 (getRuntimeBatchRequestAux top val false now).2 val := by
  cases hmc : dictKwMerge top val with
  | error e =>
    have h1 : getRuntimeBatchRequestAux top val false now =
        (Except.error e, val) := by
      simp [getRuntimeBatchRequestAux, hmc]
    rw [h1]
    exact ⟨h1, fun k => OptPyEq2.refl _⟩
  | ok effective =>
    have hfind : val.find? (fun p => Dict.containsKey top p.1) =
        Option.none := by
      cases hf : val.find? (fun p => Dict.containsKey top p.1) with
      | none => rfl
      | some p => simp [dictKwMerge, hf] at hmc
    have heff : effective = top ++ val := by
      simp [dictKwMerge, hfind] at hmc
      exact hmc.symm
    subst heff
    rcases popBatchData_cases val with ⟨pe, hpe⟩ | hok |
      ⟨rp, bd, hget, hbd, hbdn, hpop⟩
    · have h1 : getRuntimeBatchRequestAux top val false now =
          (Except.error pe, val) := by
        simp [getRuntimeBatchRequestAux, hmc, hpe]
      rw [h1]
      exact ⟨h1, fun k => OptPyEq2.refl _⟩
    · cases hcf : val.find? (conflictPred top) with
      | some p =>
        have h1 : getRuntimeBatchRequestAux top val false now =
            (Except.error (PyErr.checkpointError
              ("BatchRequest attribute \"" ++ p.1 ++
               "\" was specified in both validation and top-level CheckpointConfig.")),
             val) := by
          simp [getRuntimeBatchRequestAux, hmc, hok, hcf]
        rw [h1]
        exact ⟨h1, fun k => OptPyEq2.refl _⟩
      | none =>
        cases hbb : buildBatchRequest top val
            (if Dict.containsKey (top ++ val) "runtime_parameters" then
              BRClass.runtimeBatchRequest else BRClass.batchRequest)
            false now with
        | error e2 =>
          have h1 : getRuntimeBatchRequestAux top val false now =
              (Except.error e2, val) := by
            simp [getRuntimeBatchRequestAux, hmc, hok, hcf, hbb]
          rw [h1]
          exact ⟨h1, fun k => OptPyEq2.refl _⟩
        | ok r =>
          have h1 : getRuntimeBatchRequestAux top val false now =
              (Except.ok (Option.some r), val) := by
            simp [getRuntimeBatchRequestAux, hmc, hok, hcf, hbb]
          rw [h1]
          exact ⟨h1, fun k => OptPyEq2.refl _⟩
    · obtain ⟨v2, hv2⟩ : ∃ v2, v2 = Dict.put val "runtime_parameters"
          (PyVal.dict (Dict.put (Dict.pop rp "batch_data") "batch_data" bd)) :=
        ⟨_, rfl⟩
      rw [← hv2] at hpop
      have hgrp2 : Dict.get (Dict.put (Dict.pop rp "batch_data")
          "batch_data" bd) "batch_data" = Option.some bd :=
        Dict.get_put_self _ _ _
      have hck2 : ∀ k, Dict.containsKey v2 k = Dict.containsKey val k := by
        intro k
        by_cases hk : k = "runtime_parameters"
        · subst hk
          rw [hv2]
          simp [Dict.containsKey, Dict.get_put_self, hget]
        · rw [hv2]
          simp [Dict.containsKey, Dict.get_put_ne _ _ _ _ hk]
      have hdeq : DictEq2 v2 val := by
        intro k
        by_cases hk : k = "runtime_parameters"
        · subst hk
          rw [hv2, Dict.get_put_self, hget]
          exact Dict.get_put_pop rp "batch_data" bd hbd
        · rw [hv2, Dict.get_put_ne _ _ _ _ hk]
          exact OptPyEq2.refl _
      have hfind2 : v2.find? (fun p => Dict.containsKey top p.1) =
          Option.none := by
        refine List.find?_eq_none.mpr (fun p hp => ?_)
        have h1 : Dict.containsKey v2 p.1 = true :=
          Dict.containsKey_of_mem v2 p hp
        rw [hck2 p.1] at h1
        simp only [Dict.containsKey, Option.isSome_iff_exists] at h1
        obtain ⟨w, hw⟩ := h1
        exact List.find?_eq_none.mp hfind (p.1, w) (Dict.mem_of_get val p.1 w hw)
      have hmc2 : dictKwMerge top v2 = Except.ok (top ++ v2) := by
        simp [dictKwMerge, hfind2]
      have hpop2 : popBatchData v2 = Except.ok (v2, Option.some bd) := by
        have hpp : Dict.pop (Dict.put (Dict.pop rp "batch_data")
            "batch_data" bd) "batch_data" = Dict.pop rp "batch_data" :=
          Dict.pop_put_pop rp "batch_data" bd
        rw [hv2]
        simp [popBatchData, Dict.get_put_self, hgrp2, hbdn, hpp, Dict.put_put]
      have hcls : Dict.containsKey (top ++ v2) "runtime_parameters" =
          Dict.containsKey (top ++ val) "runtime_parameters" := by
        rw [Dict.containsKey_append, Dict.containsKey_append, hck2]
      cases hcf : v2.find? (conflictPred top) with
      | some p =>
        have h1 : getRuntimeBatchRequestAux top val false now =
            (Except.error (PyErr.checkpointError
              ("BatchRequest attribute \"" ++ p.1 ++
               "\" was specified in both validation and top-level CheckpointConfig.")),
             v2) := by
          simp [getRuntimeBatchRequestAux, hmc, hpop, hcf]
        have h2 : getRuntimeBatchRequestAux top v2 false now =
            (Except.error (PyErr.checkpointError
              ("BatchRequest attribute \"" ++ p.1 ++
               "\" was specified in both validation and top-level CheckpointConfig.")),
             v2) := by
          simp [getRuntimeBatchRequestAux, hmc2, hpop2, hcf]
        refine ⟨?_, ?_⟩
        · rw [h1]
          exact h2.trans h1.symm |>.trans h1
        · rw [h1]
          exact hdeq
      | none =>
        cases hbb : buildBatchRequest top v2
            (if Dict.containsKey (top ++ val) "runtime_parameters" then
              BRClass.runtimeBatchRequest else BRClass.batchRequest)
            false now with
        | error e2 =>
          have h1 : getRuntimeBatchRequestAux top val false now =
              (Except.error e2, v2) := by
            simp [getRuntimeBatchRequestAux, hmc, hpop, hcf, hbb]
          have h2 : getRuntimeBatchRequestAux top v2 false now =
              (Except.error e2, v2) := by
            simp [getRuntimeBatchRequestAux, hmc2, hpop2, hcf, hcls, hbb]
          refine ⟨?_, ?_⟩
          · rw [h1]
            exact h2
          · rw [h1]
            exact hdeq
        | ok r =>
          have h1 : getRuntimeBatchRequestAux top val false now =
              (Except.ok (Option.some r), v2) := by
            simp [getRuntimeBatchRequestAux, hmc, hpop, hcf, hbb]
          have h2 : getRuntimeBatchRequestAux top v2 false now =
              (Except.ok (Option.some r), v2) := by
            simp [getRuntimeBatchRequestAux, hmc2, hpop2, hcf, hcls, hbb]
          refine ⟨?_, ?_⟩
          · rw [h1]
            exact h2
          · rw [h1]
            exact hdeq

/-- C9: resolving the same batch-request pair twice with
`get_runtime_batch_request` (non-cloud defaults) yields the same result —
the second resolution, performed on the validation mapping as the first
left it, returns an identical outcome and state — and resolution does not
mutate either input as a Python mapping: the top-level mapping is never
written to, and the validation-level mapping is `==`-equal to its initial
value (the popped `batch_data` payload is restored before return, moving at
most its position inside `runtime_parameters`). -/
theorem C9_resolution_idempotent_and_non_mutating
    (topBR valBR : Option Dict) (now : String) :
    getRuntimeBatchRequest topBR
        (getRuntimeBatchRequest topBR valBR false now).2 false now =
      getRuntimeBatchRequest topBR valBR false now ∧
    OptDictEq2 (getRuntimeBatchRequest topBR valBR false now).2 valBR := by
  cases topBR with
  | none =>
    cases valBR with
    | none =>
      constructor
      · rfl
      · rfl
    | some v =>
      have h1 : getRuntimeBatchRequest Option.none (Option.some v) false now =
          ((getRuntimeBatchRequestAux [] v false now).1,
           Option.some (getRuntimeBatchRequestAux [] v false now).2) := by
        simp [getRuntimeBatchRequest]
      obtain ⟨hidem, hdeq⟩ := getRuntimeBatchRequestAux_idem [] v now
      constructor
      · rw [h1]
        have h2 : getRuntimeBatchRequest Option.none
            (Option.some ((getRuntimeBatchRequestAux [] v false now).2))
            false now =
            ((getRuntimeBatchRequestAux []
                (getRuntimeBatchRequestAux [] v false now).2 false now).1,
             Option.some (getRuntimeBatchRequestAux []
                (getRuntimeBatchRequestAux [] v false now).2 false now).2) := by
          simp [getRuntimeBatchRequest]
        rw [h2, hidem]
      · rw [h1]
        exact hdeq
  | some t =>
    cases valBR with
    | none =>
      have h1 : getRuntimeBatchRequest (Option.some t) Option.none false now =
          ((getRuntimeBatchRequestAux t [] false now).1, Option.none) := by
        simp [getRuntimeBatchRequest]
      constructor
      · rw [h1]
        exact h1
      · rw [h1]
        rfl
    | some v =>
      have h1 : getRuntimeBatchRequest (Option.some t) (Option.some v)
          false now =
          ((getRuntimeBatchRequestAux t v false now).1,
           Option.some (getRuntimeBatchRequestAux t v false now).2) := by
        simp [getRuntimeBatchRequest]
      obtain ⟨hidem, hdeq⟩ := getRuntimeBatchRequestAux_idem t v now
      constructor
      · rw [h1]
        have h2 : getRuntimeBatchRequest (Option.some t)
            (Option.some ((getRuntimeBatchRequestAux t v false now).2))
            false now =
            ((getRuntimeBatchRequestAux t
                (getRuntimeBatchRequestAux t v false now).2 false now).1,
             Option.some (getRuntimeBatchRequestAux t
                (getRuntimeBatchRequestAux t v false now).2 false now).2) := by
          simp [getRuntimeBatchRequest]
        rw [h2, hidem]
      · rw [h1]
        exact hdeq
